import Mathlib

/-!
Verification of the Ramaris Go SDK request pipeline (`ramaris.go`).

The embedding translates the client's request execution pipeline:
`doRequest` (retry loop with backoff), `updateRateLimit` / `RateLimit`
(rate-limit snapshot tracking), `buildURL` (query construction), the
error-envelope defaulting helpers, and the shared shape of the endpoint
methods (`Health`, `GetStrategy`, ...).

Modelling conventions:
* The HTTP transport (`httpClient.Do`) is a collaborator: a call is a
  function `Nat → TransportOutcome` giving the outcome of the i-th attempt.
* The error body is carried as the value `json.Unmarshal` would produce
  into the Go `errorResponse` struct: malformed JSON or missing fields
  leave the Go zero values `""` / `""` / `0` (the Go code discards the
  unmarshal error), so an absent or malformed envelope is the zero
  envelope `⟨"", "", 0⟩`.
* The three rate-limit headers are carried as the strings returned by
  `http.Header.Get`: the empty string when the header is absent.
* The caller's context is the predicate `ctxDone i`: whether the context
  is done when the backoff `select` after attempt `i` runs; a context or
  connection failure inside `httpClient.Do` itself is a
  `TransportOutcome.err` with its cause, which the pipeline propagates
  unconsumed (the Go code wraps it with `%w`, preserving the cause for
  `errors.Is`).
* Go `int` values reached through `strconv.Atoi` are `Int` with the
  64-bit clamp `Atoi` applies on range errors.
-/

namespace Ramaris

/-- Values of the three `X-RateLimit-*` headers as observed through Go's
`http.Header.Get`: the empty string when the header is absent. -/
structure RLHeaders where
  limit : String
  remaining : String
  reset : String
deriving DecidableEq, Repr

/-- `RateLimitInfo` from the source: the parsed rate-limit snapshot. -/
structure RateLimitInfo where
  limit : Int
  remaining : Int
  reset : Int
deriving DecidableEq, Repr

/-- A non-empty run of ASCII decimal digits, as a number. -/
def decDigitsAux : List Char → Nat → Option Nat
  | [], acc => some acc
  | c :: cs, acc =>
    if c.isDigit then decDigitsAux cs (acc * 10 + (c.toNat - 48)) else none

/-- `some n` iff `cs` is a non-empty run of ASCII decimal digits valued `n`. -/
def decDigits (cs : List Char) : Option Nat :=
  match cs with
  | [] => none
  | _ => decDigitsAux cs 0

/-- The value `strconv.ParseInt(s, 10, 64)` parses when its syntax check
passes: an optional sign followed by at least one decimal digit. -/
def parseIntSyntax (s : String) : Option Int :=
  match s.toList with
  | '+' :: cs => (decDigits cs).map (fun n => (n : Int))
  | '-' :: cs => (decDigits cs).map (fun n => -(n : Int))
  | cs => (decDigits cs).map (fun n => (n : Int))

def int64Max : Int := 2 ^ 63 - 1

def int64Min : Int := -(2 ^ 63)

/-- The value `strconv.Atoi(s)` returns when its error is discarded, as in
`updateRateLimit`: `0` on a syntax error, the value clamped to the 64-bit
range on a range error, the parsed value otherwise. -/
def atoiValue (s : String) : Int :=
  match parseIntSyntax s with
  | none => 0
  | some n => if n < int64Min then int64Min else if int64Max < n then int64Max else n

/-- `strconv.Atoi(s)` together with its error: `some v` exactly when
`Atoi` succeeds (`err == nil`), i.e. when `s` "parses as an integer". -/
def atoiOk (s : String) : Option Int :=
  match parseIntSyntax s with
  | none => none
  | some n => if n < int64Min ∨ int64Max < n then none else some n

/-- `updateRateLimit` from the source, as a transformer of the client's
`rateLimit` field: return the state unchanged when any of the three header
strings is empty, otherwise replace the snapshot with the `Atoi` values of
all three (`Atoi` errors are discarded by the Go code). -/
def updateRateLimit (h : RLHeaders) (st : Option RateLimitInfo) : Option RateLimitInfo :=
  if h.limit = "" ∨ h.remaining = "" ∨ h.reset = "" then st
  else some ⟨atoiValue h.limit, atoiValue h.remaining, atoiValue h.reset⟩

/-- The `RateLimit` accessor: returns the current snapshot (`nil` when no
complete header triple has been seen). The Go method returns a copy of the
pointed-to struct; in the embedding's value semantics the copy is the value
itself, so a returned snapshot is by construction independent of any later
`updateRateLimit`. -/
def RateLimit (st : Option RateLimitInfo) : Option RateLimitInfo := st

/-- Result of `json.Unmarshal` of an error body into `errorResponse`:
missing fields and malformed JSON leave the Go zero values. -/
structure ErrEnvelope where
  code : String
  message : String
  retryAfter : Int
deriving DecidableEq, Repr

/-- An HTTP response as the pipeline observes it: status code, the three
rate-limit header values, the raw body, and the error envelope that
`json.Unmarshal` extracts from that body (zero envelope when the body is
missing or malformed). -/
structure Response where
  status : Nat
  rlHeaders : RLHeaders
  body : String
  envelope : ErrEnvelope
deriving DecidableEq, Repr

/-- Outcome of one `httpClient.Do` call: a transport-level failure
(connection error, context cancellation or deadline, carried as an opaque
cause identifier) or a response. -/
inductive TransportOutcome where
  | err (cause : Nat)
  | ok (resp : Response)
deriving DecidableEq, Repr

/-- The error values `doRequest` can return: the wrapped transport failure
(cause preserved, the Go code wraps with `%w`), `RateLimitError`, `ctx.Err()`
returned from the backoff select, `*Error` (the API error), and the
defensive `"max retries exceeded"` fallback after the loop. -/
inductive ReqError where
  | transportError (cause : Nat)
  | rateLimitError (code message : String) (statusCode : Nat) (retryAfter : Int)
  | ctxError
  | apiError (code message : String) (statusCode : Nat)
  | maxRetriesExceeded
deriving DecidableEq, Repr

/-- `codeOrDefault` from the source. -/
def codeOrDefault (code dflt : String) : String :=
  if code ≠ "" then code else dflt

/-- `msgOrDefault` from the source. -/
def msgOrDefault (msg dflt : String) : String :=
  if msg ≠ "" then msg else dflt

/-- What one `doRequest` call did: its return value, how many times the
transport was invoked, the backoff delays (ms) actually waited between
attempts, and the client's rate-limit state afterwards. -/
structure DoResult where
  result : Except ReqError Response
  calls : Nat
  waits : List Nat
  state : Option RateLimitInfo

/-- `maxRetries := 3` from `doRequest`. -/
def maxRetries : Nat := 3

/-- The retry loop of `doRequest`, translated clause by clause from the
source: attempt `i` invokes the transport; a transport failure returns
immediately; otherwise the rate-limit state is updated from the headers,
a 2xx returns the response, a 429 returns `RateLimitError` with the
envelope's fields defaulted, a 5xx with `i < maxRetries-1` waits the
current backoff (or returns `ctx.Err()` if the context is done) and
retries with the backoff doubled, and anything else returns `*Error` with
the envelope's fields defaulted. `fuel` only makes the recursion
structural; `doRequest` supplies more than the loop can consume, so the
fuel-exhausted clause coincides with the loop's own exit. -/
def doRequestLoop (transport : Nat → TransportOutcome) (ctxDone : Nat → Bool) :
    Nat → Nat → Nat → Option RateLimitInfo → Nat → List Nat → DoResult
  | 0, _, _, st, calls, waits => ⟨.error .maxRetriesExceeded, calls, waits, st⟩
  | fuel + 1, i, backoff, st, calls, waits =>
    if i < maxRetries then
      match transport i with
      | .err c => ⟨.error (.transportError c), calls + 1, waits, st⟩
      | .ok r =>
        let st' := updateRateLimit r.rlHeaders st
        if 200 ≤ r.status ∧ r.status < 300 then
          ⟨.ok r, calls + 1, waits, st'⟩
        else if r.status = 429 then
          ⟨.error (.rateLimitError (codeOrDefault r.envelope.code "RATE_LIMITED")
              (msgOrDefault r.envelope.message "rate limit exceeded") 429
              r.envelope.retryAfter), calls + 1, waits, st'⟩
        else if 500 ≤ r.status ∧ i < maxRetries - 1 then
          if ctxDone i then
            ⟨.error .ctxError, calls + 1, waits, st'⟩
          else
            doRequestLoop transport ctxDone fuel (i + 1) (backoff * 2) st' (calls + 1)
              (waits ++ [backoff])
        else
          ⟨.error (.apiError (codeOrDefault r.envelope.code "UNKNOWN_ERROR")
              (msgOrDefault r.envelope.message ("HTTP " ++ toString r.status))
              r.status), calls + 1, waits, st'⟩
    else ⟨.error .maxRetriesExceeded, calls, waits, st⟩

/-- `doRequest` from the source: run the retry loop from attempt 0 with the
initial 500ms backoff, over the client's current rate-limit state `st₀`. -/
def doRequest (transport : Nat → TransportOutcome) (ctxDone : Nat → Bool)
    (st₀ : Option RateLimitInfo) : DoResult :=
  doRequestLoop transport ctxDone (maxRetries + 1) 0 500 st₀ 0 []

/-- Whether a `doRequest` outcome is the defensive post-loop fallback. -/
def isMaxRetriesFallback (d : DoResult) : Bool :=
  match d.result with
  | .error .maxRetriesExceeded => true
  | _ => false

/-- `ListOptions` from the source (Go zero values stand for "absent"). -/
structure ListOptions where
  page : Int
  pageSize : Int
deriving DecidableEq, Repr

/-- `strconv.Itoa`. -/
def itoa (n : Int) : String := toString n

/-- The bytes of a character in UTF-8, as Go strings store it. -/
def utf8Bytes (c : Char) : List Nat :=
  let n := c.toNat
  if n < 0x80 then [n]
  else if n < 0x800 then [0xC0 + n / 64, 0x80 + n % 64]
  else if n < 0x10000 then [0xE0 + n / 4096, 0x80 + n / 64 % 64, 0x80 + n % 64]
  else [0xF0 + n / 262144, 0x80 + n / 4096 % 64, 0x80 + n / 64 % 64, 0x80 + n % 64]

/-- Upper-case hexadecimal digit, as `net/url` emits. -/
def hexDigit (n : Nat) : Char :=
  if n < 10 then Char.ofNat (48 + n) else Char.ofNat (55 + n)

/-- `%XX` percent-encoding of one byte. -/
def percentByte (b : Nat) : String :=
  String.mk ['%', hexDigit (b / 16), hexDigit (b % 16)]

/-- The bytes `net/url` leaves unescaped in a query component: ASCII
alphanumerics and `-`, `_`, `.`, `~`. -/
def isQueryUnescaped (c : Char) : Bool :=
  c.isAlpha || c.isDigit || c = '-' || c = '_' || c = '.' || c = '~'

/-- `url.QueryEscape`: unreserved bytes kept, space becomes `+`, every
other byte of the UTF-8 encoding percent-encoded. -/
def queryEscape (s : String) : String :=
  String.join (s.toList.map fun c =>
    if isQueryUnescaped c then String.singleton c
    else if c = ' ' then "+"
    else String.join ((utf8Bytes c).map percentByte))

/-- Lexicographic order on byte sequences. -/
def bytesLt : List Nat → List Nat → Bool
  | [], [] => false
  | [], _ :: _ => true
  | _ :: _, [] => false
  | a :: as, b :: bs => if a < b then true else if b < a then false else bytesLt as bs

/-- The UTF-8 bytes of a string, the representation Go indexes. -/
def strBytes (s : String) : List Nat := (s.toList.map utf8Bytes).flatten

/-- Go's `<` on strings: lexicographic on UTF-8 bytes, the order
`sort.Strings` sorts with. -/
def goStringLt (a b : String) : Bool := bytesLt (strBytes a) (strBytes b)

/-- Insert a key/value pair into a list sorted by key (ascending, byte-wise
string order as `sort.Strings` uses). -/
def insertSorted (p : String × String) : List (String × String) → List (String × String)
  | [] => [p]
  | q :: qs => if goStringLt p.1 q.1 then p :: q :: qs else q :: insertSorted p qs

/-- Sort key/value pairs by key, as `url.Values.Encode` sorts its keys. -/
def sortByKey : List (String × String) → List (String × String)
  | [] => []
  | p :: ps => insertSorted p (sortByKey ps)

/-- One `k=v` term of an encoded query, both sides query-escaped. -/
def encodePair (p : String × String) : String :=
  queryEscape p.1 ++ "=" ++ queryEscape p.2

/-- Join encoded terms with `&` (a separator before every term after the
first, as `url.Values.Encode` writes them). -/
def joinAmp : List String → String
  | [] => ""
  | [s] => s
  | s :: ss => s ++ "&" ++ joinAmp ss

/-- `url.Values.Encode` for the parameter lists `buildURL` builds: sort by
key, escape, join with `&`. -/
def encodeValues (params : List (String × String)) : String :=
  joinAmp ((sortByKey params).map encodePair)

/-- `buildURL` from the source: base + path; with options, set `page` and
`pageSize` only when positive and append the encoded query when non-empty. -/
def buildURL (baseURL path : String) (opts : Option ListOptions) : String :=
  let u := baseURL ++ path
  match opts with
  | none => u
  | some o =>
    let params : List (String × String) :=
      (if o.page > 0 then [("page", itoa o.page)] else []) ++
      (if o.pageSize > 0 then [("pageSize", itoa o.pageSize)] else [])
    if params.isEmpty then u
    else u ++ "?" ++ encodeValues params

/-- The error values a public endpoint method can return: an error from
`doRequest` passed through unchanged (`return nil, err`), or the fresh
`"ramaris: failed to decode response: %w"` error wrapping a decoder
failure — a distinct value, distinguishable from every pipeline error. -/
inductive ClientError where
  | fromRequest (e : ReqError)
  | decodeFailed (cause : Nat)
deriving DecidableEq, Repr

/-- Shared shape of every public endpoint method (`Health`,
`ListStrategies`, `GetStrategy`, ...): run `doRequest`; on error return it
unchanged; on success decode the body into the operation's typed result
(`decode` stands for the `encoding/json` decode of that operation's shape,
including envelope unwrapping), wrapping a decoder failure in the decoding
error. -/
def clientOp {α : Type} (transport : Nat → TransportOutcome) (ctxDone : Nat → Bool)
    (st₀ : Option RateLimitInfo) (decode : String → Except Nat α) : Except ClientError α :=
  match (doRequest transport ctxDone st₀).result with
  | .error e => .error (.fromRequest e)
  | .ok r =>
    match decode r.body with
    | .error c => .error (.decodeFailed c)
    | .ok a => .ok a

/-! Concrete fixtures used by witness and counterexample theorems. -/

/-- A context that is never done. -/
def ctx0 : Nat → Bool := fun _ => false

/-- Header triple with all three rate-limit headers absent. -/
def hdrEmpty : RLHeaders := ⟨"", "", ""⟩

/-- The zero error envelope: what `json.Unmarshal` leaves for a missing or
malformed error body. -/
def env0 : ErrEnvelope := ⟨"", "", 0⟩

/-- A bare response with the given status, no rate-limit headers, an empty
body and the zero envelope. -/
def mkResp (s : Nat) : Response := ⟨s, hdrEmpty, "", env0⟩

/-- Transport answering 500 with an empty envelope on every attempt. -/
def t500 : Nat → TransportOutcome := fun _ => .ok (mkResp 500)

/-- Transport answering 200 on every attempt. -/
def tOk : Nat → TransportOutcome := fun _ => .ok (mkResp 200)

/-- Transport answering 502 twice, then 200. -/
def tRetry : Nat → TransportOutcome := fun i =>
  if i < 2 then .ok (mkResp 502) else .ok (mkResp 200)

/-- Transport answering 429 with a populated envelope on every attempt. -/
def t429 : Nat → TransportOutcome := fun _ =>
  .ok ⟨429, hdrEmpty, "", ⟨"RATE_LIMITED", "too many requests", 60⟩⟩

/-- Transport answering 404 with a `NOT_FOUND` envelope on every attempt. -/
def t404 : Nat → TransportOutcome := fun _ =>
  .ok ⟨404, hdrEmpty, "", ⟨"NOT_FOUND", "strategy not found", 0⟩⟩

/-- Transport answering 303 with an empty envelope on every attempt. -/
def t303 : Nat → TransportOutcome := fun _ => .ok (mkResp 303)

/-- Transport failing with cause 7 on every attempt. -/
def tErr : Nat → TransportOutcome := fun _ => .err 7

/-!  General lemmas about the retry loop: one lemma per exit or step of
`doRequestLoop`, then the global call-count bound and the unreachability of
the fuel/fall-through clause. -/

theorem maxRetries_eq : maxRetries = 3 := rfl

theorem doRequestLoop_transport_err (transport : Nat → TransportOutcome)
    (ctxDone : Nat → Bool) (fuel i backoff : Nat) (st : Option RateLimitInfo)
    (calls : Nat) (waits : List Nat) (c : Nat)
    (hi : i < maxRetries) (h : transport i = .err c) :
    doRequestLoop transport ctxDone (fuel + 1) i backoff st calls waits =
      ⟨.error (.transportError c), calls + 1, waits, st⟩ := by
  rw [doRequestLoop, if_pos hi, h]

theorem doRequestLoop_success (transport : Nat → TransportOutcome)
    (ctxDone : Nat → Bool) (fuel i backoff : Nat) (st : Option RateLimitInfo)
    (calls : Nat) (waits : List Nat) (r : Response)
    (hi : i < maxRetries) (h : transport i = .ok r)
    (h2 : 200 ≤ r.status) (h3 : r.status < 300) :
    doRequestLoop transport ctxDone (fuel + 1) i backoff st calls waits =
      ⟨.ok r, calls + 1, waits, updateRateLimit r.rlHeaders st⟩ := by
  rw [doRequestLoop, if_pos hi, h]
  dsimp only
  rw [if_pos ⟨h2, h3⟩]

theorem doRequestLoop_429 (transport : Nat → TransportOutcome)
    (ctxDone : Nat → Bool) (fuel i backoff : Nat) (st : Option RateLimitInfo)
    (calls : Nat) (waits : List Nat) (r : Response)
    (hi : i < maxRetries) (h : transport i = .ok r) (h429 : r.status = 429) :
    doRequestLoop transport ctxDone (fuel + 1) i backoff st calls waits =
      ⟨.error (.rateLimitError (codeOrDefault r.envelope.code "RATE_LIMITED")
          (msgOrDefault r.envelope.message "rate limit exceeded") 429
          r.envelope.retryAfter), calls + 1, waits, updateRateLimit r.rlHeaders st⟩ := by
  rw [doRequestLoop, if_pos hi, h]
  dsimp only
  rw [if_neg (by omega), if_pos h429]

theorem doRequestLoop_5xx_retry (transport : Nat → TransportOutcome)
    (ctxDone : Nat → Bool) (fuel i backoff : Nat) (st : Option RateLimitInfo)
    (calls : Nat) (waits : List Nat) (r : Response)
    (hi : i < maxRetries) (h : transport i = .ok r) (h5 : 500 ≤ r.status)
    (hlt : i < maxRetries - 1) (hc : ctxDone i = false) :
    doRequestLoop transport ctxDone (fuel + 1) i backoff st calls waits =
      doRequestLoop transport ctxDone fuel (i + 1) (backoff * 2)
        (updateRateLimit r.rlHeaders st) (calls + 1) (waits ++ [backoff]) := by
  rw [doRequestLoop, if_pos hi, h]
  dsimp only
  rw [if_neg (by omega), if_neg (by omega), if_pos ⟨h5, hlt⟩, hc]
  simp

theorem doRequestLoop_apiError (transport : Nat → TransportOutcome)
    (ctxDone : Nat → Bool) (fuel i backoff : Nat) (st : Option RateLimitInfo)
    (calls : Nat) (waits : List Nat) (r : Response)
    (hi : i < maxRetries) (h : transport i = .ok r)
    (hn2 : ¬(200 ≤ r.status ∧ r.status < 300)) (hn429 : r.status ≠ 429)
    (hn5 : ¬(500 ≤ r.status ∧ i < maxRetries - 1)) :
    doRequestLoop transport ctxDone (fuel + 1) i backoff st calls waits =
      ⟨.error (.apiError (codeOrDefault r.envelope.code "UNKNOWN_ERROR")
          (msgOrDefault r.envelope.message ("HTTP " ++ toString r.status))
          r.status), calls + 1, waits, updateRateLimit r.rlHeaders st⟩ := by
  rw [doRequestLoop, if_pos hi, h]
  dsimp only
  rw [if_neg hn2, if_neg hn429, if_neg hn5]

theorem doRequestLoop_calls_le (transport : Nat → TransportOutcome)
    (ctxDone : Nat → Bool) :
    ∀ fuel i backoff st calls waits,
      (doRequestLoop transport ctxDone fuel i backoff st calls waits).calls ≤
        calls + (maxRetries - i) := by
  intro fuel
  induction fuel with
  | zero =>
    intro i backoff st calls waits
    simp [doRequestLoop]
  | succ f ih =>
    intro i backoff st calls waits
    rw [doRequestLoop]
    by_cases hi : i < maxRetries
    · rw [if_pos hi]
      rw [maxRetries_eq] at hi
      cases h : transport i with
      | err c => simp [maxRetries_eq]; omega
      | ok r =>
        dsimp only
        by_cases h2 : 200 ≤ r.status ∧ r.status < 300
        · rw [if_pos h2]; simp [maxRetries_eq]; omega
        · rw [if_neg h2]
          by_cases h429 : r.status = 429
          · rw [if_pos h429]; simp [maxRetries_eq]; omega
          · rw [if_neg h429]
            by_cases h5 : 500 ≤ r.status ∧ i < maxRetries - 1
            · rw [if_pos h5]
              rw [maxRetries_eq] at h5
              by_cases hc : ctxDone i = true
              · rw [if_pos hc]; simp [maxRetries_eq]; omega
              · rw [if_neg hc]
                have := ih (i + 1) (backoff * 2) (updateRateLimit r.rlHeaders st)
                  (calls + 1) (waits ++ [backoff])
                rw [maxRetries_eq] at this ⊢
                omega
            · rw [if_neg h5]; simp [maxRetries_eq]; omega
    · rw [if_neg hi]
      simp

theorem doRequestLoop_not_fallback (transport : Nat → TransportOutcome)
    (ctxDone : Nat → Bool) :
    ∀ fuel i backoff st calls waits, maxRetries - i < fuel → i < maxRetries →
      isMaxRetriesFallback
        (doRequestLoop transport ctxDone fuel i backoff st calls waits) = false := by
  intro fuel
  induction fuel with
  | zero =>
    intro i backoff st calls waits hfuel hi
    omega
  | succ f ih =>
    intro i backoff st calls waits hfuel hi
    rw [doRequestLoop, if_pos hi]
    cases h : transport i with
    | err c => rfl
    | ok r =>
      dsimp only
      by_cases h2 : 200 ≤ r.status ∧ r.status < 300
      · rw [if_pos h2]; rfl
      · rw [if_neg h2]
        by_cases h429 : r.status = 429
        · rw [if_pos h429]; rfl
        · rw [if_neg h429]
          by_cases h5 : 500 ≤ r.status ∧ i < maxRetries - 1
          · rw [if_pos h5]
            by_cases hc : ctxDone i = true
            · rw [if_pos hc]; rfl
            · rw [if_neg hc]
              apply ih
              · rw [maxRetries_eq] at hfuel h5 ⊢; omega
              · rw [maxRetries_eq] at h5 ⊢; omega
          · rw [if_neg h5]; rfl

/-- C9: the defensive "max retries exceeded" fallback after the retry loop
in `doRequest` is unreachable: for every input and every sequence of
transport outcomes, the loop's own exit conditions return before control
can fall through to that final return statement. -/
theorem doRequest_fallback_unreachable (transport : Nat → TransportOutcome)
    (ctxDone : Nat → Bool) (st₀ : Option RateLimitInfo) :
    isMaxRetriesFallback (doRequest transport ctxDone st₀) = false := by
  unfold doRequest
  exact doRequestLoop_not_fallback transport ctxDone (maxRetries + 1) 0 500 st₀ 0 []
    (by decide) (by decide)

/-- C6: a transport-level failure (connection error, context cancellation
or deadline, carried as an opaque cause) on any attempt aborts `doRequest`
immediately — no retry, no further transport call, no backoff wait beyond
those already performed — and the failure is surfaced with its cause
preserved, so the caller can distinguish cancellation from I/O failure. -/
theorem doRequest_transport_failure (transport : Nat → TransportOutcome)
    (ctxDone : Nat → Bool) (st₀ : Option RateLimitInfo) :
    (∀ c, transport 0 = .err c →
      doRequest transport ctxDone st₀ = ⟨.error (.transportError c), 1, [], st₀⟩) ∧
    (∀ fuel i backoff st calls waits c, i < maxRetries → transport i = .err c →
      doRequestLoop transport ctxDone (fuel + 1) i backoff st calls waits =
        ⟨.error (.transportError c), calls + 1, waits, st⟩) := by
  constructor
  · intro c h
    unfold doRequest
    exact doRequestLoop_transport_err transport ctxDone maxRetries 0 500 st₀ 0 [] c
      (by decide) h
  · intro fuel i backoff st calls waits c hi h
    exact doRequestLoop_transport_err transport ctxDone fuel i backoff st calls waits c hi h

theorem doRequest_transport_failure_witness :
    doRequest tErr ctx0 none = ⟨.error (.transportError 7), 1, [], none⟩ :=
  (doRequest_transport_failure tErr ctx0 none).1 7 rfl

/-- C3: a 429 response makes exactly one transport call (no retry, no
backoff wait) and returns `RateLimitError` whose `RetryAfter` is the
envelope's `retryAfter` (which is 0 when the field is absent or the
envelope malformed, since `json.Unmarshal` leaves the zero value), whose
`Code` defaults to "RATE_LIMITED" and `Message` to "rate limit exceeded"
when the envelope is missing or malformed (zero envelope), and whose
`StatusCode` is 429. -/
theorem doRequest_429_immediate (transport : Nat → TransportOutcome)
    (ctxDone : Nat → Bool) (st₀ : Option RateLimitInfo) (r : Response)
    (h0 : transport 0 = .ok r) (h429 : r.status = 429) :
    (doRequest transport ctxDone st₀).calls = 1 ∧
    (doRequest transport ctxDone st₀).waits = [] ∧
    (doRequest transport ctxDone st₀).result =
      .error (.rateLimitError (codeOrDefault r.envelope.code "RATE_LIMITED")
        (msgOrDefault r.envelope.message "rate limit exceeded") 429
        r.envelope.retryAfter) ∧
    (r.envelope = ⟨"", "", 0⟩ →
      (doRequest transport ctxDone st₀).result =
        .error (.rateLimitError "RATE_LIMITED" "rate limit exceeded" 429 0)) := by
  have key : doRequest transport ctxDone st₀ =
      ⟨.error (.rateLimitError (codeOrDefault r.envelope.code "RATE_LIMITED")
          (msgOrDefault r.envelope.message "rate limit exceeded") 429
          r.envelope.retryAfter), 0 + 1, [], updateRateLimit r.rlHeaders st₀⟩ := by
    unfold doRequest
    exact doRequestLoop_429 transport ctxDone maxRetries 0 500 st₀ 0 [] r (by decide) h0 h429
  refine ⟨by rw [key], by rw [key], by rw [key], ?_⟩
  intro he
  rw [key]
  dsimp only
  rw [he]
  simp [codeOrDefault, msgOrDefault]

theorem doRequest_429_immediate_witness :
    (doRequest t429 ctx0 none).calls = 1 ∧
    (doRequest t429 ctx0 none).result =
      .error (.rateLimitError "RATE_LIMITED" "too many requests" 429 60) := by
  have h := doRequest_429_immediate t429 ctx0 none
    ⟨429, hdrEmpty, "", ⟨"RATE_LIMITED", "too many requests", 60⟩⟩ rfl rfl
  exact ⟨h.1, by rw [h.2.2.1]; rfl⟩

/-- C10: any response status in [300, 500) other than 429 — including the
3xx statuses the spec's classification rules do not mention — makes
`doRequest` return `*Error` immediately after exactly one transport call,
with `StatusCode` equal to that status, no retry and no backoff wait. -/
theorem doRequest_3xx_4xx_immediate (transport : Nat → TransportOutcome)
    (ctxDone : Nat → Bool) (st₀ : Option RateLimitInfo) (r : Response)
    (h0 : transport 0 = .ok r) (h3 : 300 ≤ r.status) (h5 : r.status < 500)
    (h429 : r.status ≠ 429) :
    (doRequest transport ctxDone st₀).calls = 1 ∧
    (doRequest transport ctxDone st₀).waits = [] ∧
    (doRequest transport ctxDone st₀).result =
      .error (.apiError (codeOrDefault r.envelope.code "UNKNOWN_ERROR")
        (msgOrDefault r.envelope.message ("HTTP " ++ toString r.status)) r.status) := by
  have key : doRequest transport ctxDone st₀ =
      ⟨.error (.apiError (codeOrDefault r.envelope.code "UNKNOWN_ERROR")
          (msgOrDefault r.envelope.message ("HTTP " ++ toString r.status))
          r.status), 0 + 1, [], updateRateLimit r.rlHeaders st₀⟩ := by
    unfold doRequest
    exact doRequestLoop_apiError transport ctxDone maxRetries 0 500 st₀ 0 [] r (by decide)
      h0 (by omega) h429 (by omega)
  exact ⟨by rw [key], by rw [key], by rw [key]⟩

theorem doRequest_3xx_4xx_immediate_witness :
    (doRequest t303 ctx0 none).calls = 1 ∧
    (doRequest t303 ctx0 none).result =
      .error (.apiError "UNKNOWN_ERROR" "HTTP 303" 303) := by
  have h := doRequest_3xx_4xx_immediate t303 ctx0 none (mkResp 303) rfl
    (by decide) (by decide) (by decide)
  exact ⟨h.1, by rw [h.2.2]; rfl⟩

/-- C4 counterexample: three consecutive 500 responses with a missing
error envelope exhaust every retry, and the returned `*Error` carries the
default code "UNKNOWN_ERROR", not the "SERVER_ERROR" default the claim
states for exhausted 5xx. -/
theorem doRequest_serverError_default_counterexample :
    (doRequest t500 ctx0 none).result =
      .error (.apiError "UNKNOWN_ERROR" "HTTP 500" 500) ∧
    (doRequest t500 ctx0 none).calls = 3 ∧
    "UNKNOWN_ERROR" ≠ "SERVER_ERROR" :=
  ⟨rfl, rfl, by decide⟩

/-- C4 (amended): a 4xx other than 429, or a 5xx on the final attempt,
returns `*Error` immediately with no further retry, `StatusCode` equal to
the response status, `Code` the envelope's code defaulting to
"UNKNOWN_ERROR" (the single default the code applies in both cases — no
"SERVER_ERROR" default exists), and `Message` defaulting to
"HTTP <status>"; a 404 in particular returns on the first attempt. -/
theorem doRequest_apiError_defaults (transport : Nat → TransportOutcome)
    (ctxDone : Nat → Bool) (st₀ : Option RateLimitInfo) :
    (∀ r, transport 0 = .ok r → 400 ≤ r.status → r.status < 500 → r.status ≠ 429 →
      (doRequest transport ctxDone st₀).calls = 1 ∧
      (doRequest transport ctxDone st₀).waits = [] ∧
      (doRequest transport ctxDone st₀).result =
        .error (.apiError (codeOrDefault r.envelope.code "UNKNOWN_ERROR")
          (msgOrDefault r.envelope.message ("HTTP " ++ toString r.status)) r.status)) ∧
    (∀ r₀ r₁ r₂, transport 0 = .ok r₀ → transport 1 = .ok r₁ → transport 2 = .ok r₂ →
      500 ≤ r₀.status → 500 ≤ r₁.status → 500 ≤ r₂.status →
      (∀ i, ctxDone i = false) →
      (doRequest transport ctxDone st₀).calls = 3 ∧
      (doRequest transport ctxDone st₀).result =
        .error (.apiError (codeOrDefault r₂.envelope.code "UNKNOWN_ERROR")
          (msgOrDefault r₂.envelope.message ("HTTP " ++ toString r₂.status)) r₂.status)) := by
  constructor
  · intro r h0 h4 h5 h429
    have key : doRequest transport ctxDone st₀ =
        ⟨.error (.apiError (codeOrDefault r.envelope.code "UNKNOWN_ERROR")
            (msgOrDefault r.envelope.message ("HTTP " ++ toString r.status))
            r.status), 0 + 1, [], updateRateLimit r.rlHeaders st₀⟩ := by
      unfold doRequest
      exact doRequestLoop_apiError transport ctxDone maxRetries 0 500 st₀ 0 [] r (by decide)
        h0 (by omega) h429 (by omega)
    exact ⟨by rw [key], by rw [key], by rw [key]⟩
  · intro r₀ r₁ r₂ h0 h1 h2 hs0 hs1 hs2 hctx
    have key : doRequest transport ctxDone st₀ =
        ⟨.error (.apiError (codeOrDefault r₂.envelope.code "UNKNOWN_ERROR")
            (msgOrDefault r₂.envelope.message ("HTTP " ++ toString r₂.status))
            r₂.status), 0 + 1 + 1 + 1, [] ++ [500] ++ [500 * 2],
          updateRateLimit r₂.rlHeaders (updateRateLimit r₁.rlHeaders
            (updateRateLimit r₀.rlHeaders st₀))⟩ := by
      show doRequestLoop transport ctxDone (2 + 1 + 1) 0 500 st₀ 0 [] = _
      rw [doRequestLoop_5xx_retry transport ctxDone (2 + 1) 0 500 st₀ 0 [] r₀
        (by decide) h0 hs0 (by decide) (hctx 0)]
      rw [doRequestLoop_5xx_retry transport ctxDone 2 1 (500 * 2)
        (updateRateLimit r₀.rlHeaders st₀) (0 + 1) ([] ++ [500]) r₁
        (by decide) h1 hs1 (by decide) (hctx 1)]
      rw [doRequestLoop_apiError transport ctxDone 1 2 (500 * 2 * 2)
        (updateRateLimit r₁.rlHeaders (updateRateLimit r₀.rlHeaders st₀)) (0 + 1 + 1)
        ([] ++ [500] ++ [500 * 2]) r₂ (by decide) h2 (by omega) (by omega)
        (by rw [maxRetries_eq]; omega)]
    exact ⟨by rw [key], by rw [key]⟩

theorem doRequest_apiError_defaults_witness :
    (doRequest t404 ctx0 none).calls = 1 ∧
    (doRequest t404 ctx0 none).result =
      .error (.apiError "NOT_FOUND" "strategy not found" 404) := by
  have h := (doRequest_apiError_defaults t404 ctx0 none).1
    ⟨404, hdrEmpty, "", ⟨"NOT_FOUND", "strategy not found", 0⟩⟩ rfl
    (by decide) (by decide) (by decide)
  exact ⟨h.1, by rw [h.2.2]; rfl⟩

theorem atoiOk_eq_some {s : String} {v : Int} (h : atoiOk s = some v) :
    s ≠ "" ∧ atoiValue s = v := by
  unfold atoiOk at h
  unfold atoiValue
  cases hp : parseIntSyntax s with
  | none =>
    rw [hp] at h
    dsimp only at h
    cases h
  | some n =>
    rw [hp] at h
    dsimp only at h ⊢
    by_cases hr : n < int64Min ∨ int64Max < n
    · rw [if_pos hr] at h; cases h
    · rw [if_neg hr] at h
      injection h with hv
      push_neg at hr
      constructor
      · intro hs
        subst hs
        rw [show parseIntSyntax "" = none from rfl] at hp
        cases hp
      · rw [if_neg (by omega), if_neg (by omega)]
        exact hv

/-- C2 counterexample: the header "abc" is present but does not parse as
an integer (`Atoi` fails), yet `updateRateLimit` still replaces the
snapshot — with 0 for the unparsable field — so the snapshot is not
unchanged as the claim requires. -/
theorem updateRateLimit_nonparsing_counterexample :
    atoiOk "abc" = none ∧
    updateRateLimit ⟨"abc", "99", "100"⟩ (some ⟨7, 7, 7⟩) = some ⟨0, 99, 100⟩ ∧
    updateRateLimit ⟨"abc", "99", "100"⟩ (some ⟨7, 7, 7⟩) ≠ some ⟨7, 7, 7⟩ := by
  refine ⟨rfl, rfl, ?_⟩
  decide

/-- C2 (amended): when all three rate-limit headers are present and parse
as integers, the snapshot after `updateRateLimit` is exactly that triple;
when any header is missing (empty through `Header.Get`), the snapshot is
unchanged; but when all three are present and any fails to parse, the
snapshot is still replaced, using `Atoi`'s discarded-error value (0 on a
syntax error) for the failing field — the code checks presence only, not
parseability. -/
theorem updateRateLimit_amended (h : RLHeaders) (st : Option RateLimitInfo) :
    (h.limit = "" ∨ h.remaining = "" ∨ h.reset = "" → updateRateLimit h st = st) ∧
    (h.limit ≠ "" → h.remaining ≠ "" → h.reset ≠ "" →
      updateRateLimit h st =
        some ⟨atoiValue h.limit, atoiValue h.remaining, atoiValue h.reset⟩) ∧
    (∀ l r s, atoiOk h.limit = some l → atoiOk h.remaining = some r →
      atoiOk h.reset = some s → updateRateLimit h st = some ⟨l, r, s⟩) := by
  refine ⟨?_, ?_, ?_⟩
  · intro hmiss
    unfold updateRateLimit
    rw [if_pos hmiss]
  · intro h1 h2 h3
    unfold updateRateLimit
    rw [if_neg (by simp [h1, h2, h3])]
  · intro l r s hl hr hs
    obtain ⟨hl1, hl2⟩ := atoiOk_eq_some hl
    obtain ⟨hr1, hr2⟩ := atoiOk_eq_some hr
    obtain ⟨hs1, hs2⟩ := atoiOk_eq_some hs
    unfold updateRateLimit
    rw [if_neg (by simp [hl1, hr1, hs1]), hl2, hr2, hs2]

theorem updateRateLimit_amended_witness :
    updateRateLimit ⟨"100", "99", "1700000000"⟩ none = some ⟨100, 99, 1700000000⟩ :=
  (updateRateLimit_amended ⟨"100", "99", "1700000000"⟩ none).2.2 100 99 1700000000
    (by decide) (by decide) (by decide)

/-- C7: the snapshot is `nil` until some response has carried all three
rate-limit headers (any run of responses with an incomplete header triple
leaves it `nil`); once a complete triple arrives the snapshot is replaced
wholesale with all three fields derived from that single response, and
every update is either a no-op or such a wholesale replacement — never a
partial mutation; reading through `RateLimit` returns the current value
without modifying it (the Go method's copy-on-read is the embedding's
value semantics, so a returned snapshot is unaffected by later updates). -/
theorem rateLimit_snapshot_invariants :
    (∀ trace : List RLHeaders,
      (∀ h ∈ trace, h.limit = "" ∨ h.remaining = "" ∨ h.reset = "") →
      RateLimit (trace.foldl (fun st h => updateRateLimit h st) none) = none) ∧
    (∀ (h : RLHeaders) (st : Option RateLimitInfo),
      h.limit ≠ "" → h.remaining ≠ "" → h.reset ≠ "" →
      updateRateLimit h st =
        some ⟨atoiValue h.limit, atoiValue h.remaining, atoiValue h.reset⟩) ∧
    (∀ (h : RLHeaders) (st : Option RateLimitInfo),
      updateRateLimit h st = st ∨
      updateRateLimit h st =
        some ⟨atoiValue h.limit, atoiValue h.remaining, atoiValue h.reset⟩) ∧
    (∀ st : Option RateLimitInfo, RateLimit st = st) := by
  refine ⟨?_, ?_, ?_, fun st => rfl⟩
  · intro trace
    induction trace with
    | nil => intro _; rfl
    | cons h t ih =>
      intro hall
      have h0 : updateRateLimit h none = none := by
        unfold updateRateLimit
        rw [if_pos (hall h (by simp))]
      simp only [List.foldl_cons]
      rw [h0]
      exact ih fun x hx => hall x (by simp [hx])
  · intro h st h1 h2 h3
    unfold updateRateLimit
    rw [if_neg (by simp [h1, h2, h3])]
  · intro h st
    unfold updateRateLimit
    by_cases hc : h.limit = "" ∨ h.remaining = "" ∨ h.reset = ""
    · left; rw [if_pos hc]
    · right; rw [if_neg hc]

theorem rateLimit_snapshot_invariants_witness :
    RateLimit (List.foldl (fun st h => updateRateLimit h st) none
      [(⟨"", "99", "100"⟩ : RLHeaders), ⟨"100", "", "100"⟩]) = none :=
  rateLimit_snapshot_invariants.1 [⟨"", "99", "100"⟩, ⟨"100", "", "100"⟩] (by decide)

/-- C8: when an operation's 2xx response body fails to decode into its
typed result, the operation returns the decoding error — a fresh error
value distinct from every error the request pipeline itself can return
(transport errors, `*Error`, `RateLimitError`), so the two failure modes
are never conflated. -/
theorem clientOp_decoding_error {α : Type} (transport : Nat → TransportOutcome)
    (ctxDone : Nat → Bool) (st₀ : Option RateLimitInfo)
    (decode : String → Except Nat α) (r : Response) (c : Nat)
    (h0 : transport 0 = .ok r) (h2 : 200 ≤ r.status) (h3 : r.status < 300)
    (hd : decode r.body = .error c) :
    clientOp transport ctxDone st₀ decode = .error (.decodeFailed c) ∧
    (∀ e : ReqError, (ClientError.decodeFailed c) ≠ .fromRequest e) := by
  constructor
  · have key : doRequest transport ctxDone st₀ =
        ⟨.ok r, 0 + 1, [], updateRateLimit r.rlHeaders st₀⟩ := by
      unfold doRequest
      exact doRequestLoop_success transport ctxDone maxRetries 0 500 st₀ 0 [] r
        (by decide) h0 h2 h3
    unfold clientOp
    rw [key]
    dsimp only
    rw [hd]
  · intro e he
    exact ClientError.noConfusion he

theorem clientOp_decoding_error_witness :
    clientOp tOk ctx0 none (fun _ => (Except.error 5 : Except Nat Nat)) =
      .error (.decodeFailed 5) :=
  (clientOp_decoding_error tOk ctx0 none (fun _ => Except.error 5) (mkResp 200) 5 rfl
    (by decide) (by decide) rfl).1

/-- C1: the transport is invoked at most 3 times per `doRequest` call; a
run of 5xx responses followed by a 2xx on the Nth attempt (N ≤ 3, context
never done) succeeds with exactly N transport calls, the backoff waited
between attempts being 500ms after the first 5xx and 1000ms after the
second; three consecutive 5xx responses return an error after exactly 3
transport calls — no 4th call — having waited 500ms then 1000ms. -/
theorem doRequest_retry_policy (transport : Nat → TransportOutcome)
    (ctxDone : Nat → Bool) (st₀ : Option RateLimitInfo) :
    (doRequest transport ctxDone st₀).calls ≤ 3 ∧
    (∀ N, 1 ≤ N → N ≤ 3 →
      (∀ i, i < N - 1 → ∃ r, transport i = .ok r ∧ 500 ≤ r.status) →
      (∃ r, transport (N - 1) = .ok r ∧ 200 ≤ r.status ∧ r.status < 300) →
      (∀ i, ctxDone i = false) →
      (doRequest transport ctxDone st₀).calls = N ∧
      (∃ r, (doRequest transport ctxDone st₀).result = .ok r) ∧
      (doRequest transport ctxDone st₀).waits = List.take (N - 1) [500, 1000]) ∧
    ((∀ i, i < 3 → ∃ r, transport i = .ok r ∧ 500 ≤ r.status) →
      (∀ i, ctxDone i = false) →
      (doRequest transport ctxDone st₀).calls = 3 ∧
      (∃ e, (doRequest transport ctxDone st₀).result = .error e) ∧
      (doRequest transport ctxDone st₀).waits = [500, 1000]) := by
  refine ⟨?_, ?_, ?_⟩
  · have hb := doRequestLoop_calls_le transport ctxDone (maxRetries + 1) 0 500 st₀ 0 []
    unfold doRequest
    rw [maxRetries_eq] at hb ⊢
    simpa using hb
  · intro N hN1 hN3 hfail hok hctx
    interval_cases N
    · obtain ⟨r, h0, h2, h3⟩ := hok
      have key : doRequest transport ctxDone st₀ =
          ⟨.ok r, 0 + 1, [], updateRateLimit r.rlHeaders st₀⟩ := by
        unfold doRequest
        exact doRequestLoop_success transport ctxDone maxRetries 0 500 st₀ 0 [] r
          (by decide) h0 h2 h3
      exact ⟨by rw [key], ⟨r, by rw [key]⟩, by rw [key]; rfl⟩
    · obtain ⟨r0, h0, hs0⟩ := hfail 0 (by omega)
      obtain ⟨r, h1, h2, h3⟩ := hok
      have key : doRequest transport ctxDone st₀ =
          ⟨.ok r, 0 + 1 + 1, [] ++ [500],
            updateRateLimit r.rlHeaders (updateRateLimit r0.rlHeaders st₀)⟩ := by
        show doRequestLoop transport ctxDone (2 + 1 + 1) 0 500 st₀ 0 [] = _
        rw [doRequestLoop_5xx_retry transport ctxDone (2 + 1) 0 500 st₀ 0 [] r0
          (by decide) h0 hs0 (by decide) (hctx 0)]
        rw [doRequestLoop_success transport ctxDone 2 1 (500 * 2)
          (updateRateLimit r0.rlHeaders st₀) (0 + 1) ([] ++ [500]) r (by decide) h1 h2 h3]
      exact ⟨by rw [key], ⟨r, by rw [key]⟩, by rw [key]; rfl⟩
    · obtain ⟨r0, h0, hs0⟩ := hfail 0 (by omega)
      obtain ⟨r1, h1, hs1⟩ := hfail 1 (by omega)
      obtain ⟨r, h2', h2, h3⟩ := hok
      have key : doRequest transport ctxDone st₀ =
          ⟨.ok r, 0 + 1 + 1 + 1, [] ++ [500] ++ [500 * 2],
            updateRateLimit r.rlHeaders (updateRateLimit r1.rlHeaders
              (updateRateLimit r0.rlHeaders st₀))⟩ := by
        show doRequestLoop transport ctxDone (2 + 1 + 1) 0 500 st₀ 0 [] = _
        rw [doRequestLoop_5xx_retry transport ctxDone (2 + 1) 0 500 st₀ 0 [] r0
          (by decide) h0 hs0 (by decide) (hctx 0)]
        rw [doRequestLoop_5xx_retry transport ctxDone 2 1 (500 * 2)
          (updateRateLimit r0.rlHeaders st₀) (0 + 1) ([] ++ [500]) r1
          (by decide) h1 hs1 (by decide) (hctx 1)]
        rw [doRequestLoop_success transport ctxDone 1 2 (500 * 2 * 2)
          (updateRateLimit r1.rlHeaders (updateRateLimit r0.rlHeaders st₀)) (0 + 1 + 1)
          ([] ++ [500] ++ [500 * 2]) r (by decide) h2' h2 h3]
      exact ⟨by rw [key], ⟨r, by rw [key]⟩, by rw [key]; rfl⟩
  · intro hfail hctx
    obtain ⟨r0, h0, hs0⟩ := hfail 0 (by omega)
    obtain ⟨r1, h1, hs1⟩ := hfail 1 (by omega)
    obtain ⟨r2, h2, hs2⟩ := hfail 2 (by omega)
    have key : doRequest transport ctxDone st₀ =
        ⟨.error (.apiError (codeOrDefault r2.envelope.code "UNKNOWN_ERROR")
            (msgOrDefault r2.envelope.message ("HTTP " ++ toString r2.status))
            r2.status), 0 + 1 + 1 + 1, [] ++ [500] ++ [500 * 2],
          updateRateLimit r2.rlHeaders (updateRateLimit r1.rlHeaders
            (updateRateLimit r0.rlHeaders st₀))⟩ := by
      show doRequestLoop transport ctxDone (2 + 1 + 1) 0 500 st₀ 0 [] = _
      rw [doRequestLoop_5xx_retry transport ctxDone (2 + 1) 0 500 st₀ 0 [] r0
        (by decide) h0 hs0 (by decide) (hctx 0)]
      rw [doRequestLoop_5xx_retry transport ctxDone 2 1 (500 * 2)
        (updateRateLimit r0.rlHeaders st₀) (0 + 1) ([] ++ [500]) r1
        (by decide) h1 hs1 (by decide) (hctx 1)]
      rw [doRequestLoop_apiError transport ctxDone 1 2 (500 * 2 * 2)
        (updateRateLimit r1.rlHeaders (updateRateLimit r0.rlHeaders st₀)) (0 + 1 + 1)
        ([] ++ [500] ++ [500 * 2]) r2 (by decide) h2 (by omega) (by omega)
        (by rw [maxRetries_eq]; omega)]
    exact ⟨by rw [key], ⟨_, by rw [key]⟩, by rw [key]; rfl⟩

theorem doRequest_retry_policy_witness :
    (doRequest tRetry ctx0 none).calls = 3 ∧
    (∃ r, (doRequest tRetry ctx0 none).result = .ok r) ∧
    (doRequest tRetry ctx0 none).waits = [500, 1000] := by
  have h := (doRequest_retry_policy tRetry ctx0 none).2.1 3 (by decide) (by decide)
    (fun i hi => ⟨mkResp 502, by simp [tRetry, hi], by decide⟩)
    ⟨mkResp 200, by decide, by decide, by decide⟩
    (fun i => rfl)
  simpa using h

/-- C5: `buildURL` returns base + path, appending `page` and `pageSize` as
percent-encoded query parameters only when positive, in `page` then
`pageSize` order; `{page:2}` yields the suffix "?page=2",
`{page:1,pageSize:10}` yields "?page=1&pageSize=10", and absent options or
options with no positive field yield no query string. -/
theorem buildURL_query_construction (base path : String) (p ps : Int) :
    buildURL base path none = base ++ path ∧
    (p ≤ 0 → ps ≤ 0 → buildURL base path (some ⟨p, ps⟩) = base ++ path) ∧
    (0 < p → ps ≤ 0 → buildURL base path (some ⟨p, ps⟩) =
      base ++ path ++ "?" ++ ("page=" ++ queryEscape (itoa p))) ∧
    (p ≤ 0 → 0 < ps → buildURL base path (some ⟨p, ps⟩) =
      base ++ path ++ "?" ++ ("pageSize=" ++ queryEscape (itoa ps))) ∧
    (0 < p → 0 < ps → buildURL base path (some ⟨p, ps⟩) =
      base ++ path ++ "?" ++ ("page=" ++ queryEscape (itoa p) ++ "&" ++
        ("pageSize=" ++ queryEscape (itoa ps)))) ∧
    buildURL base path (some ⟨2, 0⟩) = base ++ path ++ "?page=2" ∧
    buildURL base path (some ⟨1, 10⟩) = base ++ path ++ "?page=1&pageSize=10" ∧
    buildURL base path (some ⟨0, 0⟩) = base ++ path := by
  refine ⟨rfl, ?_, ?_, ?_, ?_, ?_, ?_, rfl⟩
  · intro hp hps
    unfold buildURL
    dsimp only
    rw [if_neg (by omega : ¬p > 0), if_neg (by omega : ¬ps > 0)]
    rfl
  · intro hp hps
    unfold buildURL
    dsimp only
    rw [if_pos hp, if_neg (by omega : ¬ps > 0)]
    show (base ++ path) ++ "?" ++ (queryEscape "page" ++ "=" ++ queryEscape (itoa p)) =
      base ++ path ++ "?" ++ ("page=" ++ queryEscape (itoa p))
    rw [show (queryEscape "page" ++ "=" : String) = "page=" from rfl]
  · intro hp hps
    unfold buildURL
    dsimp only
    rw [if_neg (by omega : ¬p > 0), if_pos hps]
    show (base ++ path) ++ "?" ++
        (queryEscape "pageSize" ++ "=" ++ queryEscape (itoa ps)) =
      base ++ path ++ "?" ++ ("pageSize=" ++ queryEscape (itoa ps))
    rw [show (queryEscape "pageSize" ++ "=" : String) = "pageSize=" from rfl]
  · intro hp hps
    unfold buildURL
    dsimp only
    rw [if_pos hp, if_pos hps]
    show (base ++ path) ++ "?" ++
        ((queryEscape "page" ++ "=" ++ queryEscape (itoa p)) ++ "&" ++
          (queryEscape "pageSize" ++ "=" ++ queryEscape (itoa ps))) =
      base ++ path ++ "?" ++ ("page=" ++ queryEscape (itoa p) ++ "&" ++
        ("pageSize=" ++ queryEscape (itoa ps)))
    rw [show (queryEscape "page" ++ "=" : String) = "page=" from rfl,
      show (queryEscape "pageSize" ++ "=" : String) = "pageSize=" from rfl]
  · calc buildURL base path (some ⟨2, 0⟩)
        = (base ++ path) ++ "?" ++ "page=2" := rfl
      _ = (base ++ path) ++ ("?" ++ "page=2") := String.append_assoc _ _ _
      _ = base ++ path ++ "?page=2" := rfl
  · calc buildURL base path (some ⟨1, 10⟩)
        = (base ++ path) ++ "?" ++ "page=1&pageSize=10" := rfl
      _ = (base ++ path) ++ ("?" ++ "page=1&pageSize=10") := String.append_assoc _ _ _
      _ = base ++ path ++ "?page=1&pageSize=10" := rfl

theorem buildURL_query_construction_witness :
    buildURL "https://www.ramaris.app/api/v1" "/strategies" (some ⟨1, 10⟩) =
      "https://www.ramaris.app/api/v1" ++ "/strategies" ++ "?" ++
        ("page=" ++ queryEscape (itoa 1) ++ "&" ++ ("pageSize=" ++ queryEscape (itoa 10))) :=
  (buildURL_query_construction "https://www.ramaris.app/api/v1" "/strategies" 1 10).2.2.2.2.1
    (by decide) (by decide)

end Ramaris
